import Mathlib

/-!
Verification of the filter-and-aggregate pipeline of the offline airline
satisfaction dashboard (app.py), against its natural-language specification.

The embedding models:
  - a survey `Record` (airline, class, travel type, year, raw satisfaction label);
  - `normalize_satisfaction` (app.py lines 18-27);
  - the row mask and cumulative filter of the main callback (lines 216-222);
  - the four aggregate passes: summary counts and percentage (lines 225-229),
    per-airline breakdown `grp` (lines 256-259), per-year trend (lines 271-273),
    and the exact-year pie split (line 286);
  - the playback cursor arithmetic (lines 206-213) and the callback state
    (slider write-back, play toggle) as a transition system.

Machine floats appear only in the satisfied-percentage computation, which on
the integer counts involved is exact; it is modelled over the rationals.
-/

/-- Substring test on character lists: does the list start with `tok`?
Models the prefix step of the Python `in` operator on strings. -/
def startsWithTok : List Char → List Char → Bool
  | [], _ => true
  | _ :: _, [] => false
  | a :: tok, b :: s => a == b && startsWithTok tok s

/-- Does `tok` occur as a contiguous run anywhere in the list?  Models the
Python substring operator `tok in s`. -/
def hasTokAux (tok : List Char) : List Char → Bool
  | [] => startsWithTok tok []
  | b :: s => startsWithTok tok (b :: s) || hasTokAux tok s

/-- `containsTok s tok` models the Python expression `tok in s` on strings. -/
def containsTok (s tok : String) : Bool :=
  hasTokAux tok.data s.data

/-- Logical form of substring occurrence, used to state spec-level properties:
`tok` occurs in `s` iff the characters of `s` split around those of `tok`. -/
def hasTokP (s tok : String) : Prop :=
  ∃ l r, s.data = l ++ tok.data ++ r

/-- Python `str.strip()`: drop leading and trailing whitespace. -/
def stripStr (s : String) : String :=
  String.mk (((s.data.dropWhile Char.isWhitespace).reverse.dropWhile Char.isWhitespace).reverse)

/-- Python `str.lower()`: lowercase every character. -/
def lowerStr (s : String) : String :=
  String.mk (s.data.map Char.toLower)

/-- `normalize_satisfaction` from app.py lines 18-27.  `none` models a value
for which `pd.isna(val)` holds; the raw CSV label is otherwise a string.
The source returns the string `unknown` on the isna branch, `satisfied` when
the stripped lowercased value contains `satisf` but neither `neutral` nor
`diss`, and `neutral or dissatisfied` in the remaining two branches. -/
def normalize_satisfaction (val : Option String) : String :=
  match val with
  | none => "unknown"
  | some v =>
    let s := lowerStr (stripStr v)
    if containsTok s "satisf" && !(containsTok s "neutral") && !(containsTok s "diss") then
      "satisfied"
    else if containsTok s "neutral" || containsTok s "diss" then
      "neutral or dissatisfied"
    else
      "neutral or dissatisfied"

/-- One passenger-survey row, after the load-time enrichment of app.py:
the assigned airline, the `Class` column (`cls`), the `Type of Travel`
column (`travel`), the derived `Year`, and the raw `satisfaction` label
(`none` for a missing value). -/
structure Record where
  airline : String
  cls : String
  travel : String
  year : Int
  label : Option String
  deriving Repr, DecidableEq

/-- The `satisfaction_norm` column added at load time (app.py line 29). -/
def satisfaction_norm (r : Record) : String :=
  normalize_satisfaction r.label

/-- The three multi-select dropdown values feeding the main callback. -/
structure Selection where
  airlines : List String
  classes : List String
  travels : List String
  deriving Repr, DecidableEq

/-- The boolean row mask of app.py lines 216-221: airline must be selected;
class and travel type must be selected unless that list is empty (Python
truthiness of `class_sel` / `travel_sel`); year must be at most the cursor. -/
def rowMask (sel : Selection) (currentYear : Int) (r : Record) : Bool :=
  sel.airlines.contains r.airline &&
  (if sel.classes.isEmpty then true else sel.classes.contains r.cls) &&
  (if sel.travels.isEmpty then true else sel.travels.contains r.travel) &&
  decide (r.year ≤ currentYear)

/-- `d = df.loc[mask]` (app.py line 222): the cumulative filtered subset. -/
def filteredSubset (d : List Record) (sel : Selection) (currentYear : Int) : List Record :=
  d.filter (rowMask sel currentYear)

/-- Count of rows of `d` whose normalized satisfaction equals `lab`;
models `d["satisfaction_norm"].value_counts().get(lab, 0)`. -/
def labelCount (d : List Record) (lab : String) : Nat :=
  d.countP (fun r => satisfaction_norm r == lab)

/-- `sat_pct` of app.py line 229: `(sat / max(1, sat + diss)) * 100`,
over the rationals. -/
def sat_pct (sat diss : Nat) : ℚ :=
  ((sat : ℚ) / ((max 1 (sat + diss) : Nat) : ℚ)) * 100

/-- Descending order on per-airline rows by their total count, the key of
`sort_values("Total", ascending=False)` (app.py line 259). -/
def totalGe (x y : String × Nat × Nat) : Prop :=
  y.2.1 + y.2.2 ≤ x.2.1 + x.2.2

instance : DecidableRel totalGe := fun _ _ => Nat.decLe _ _

/-- Ascending order on years, the implicit key sort of `groupby("Year")`. -/
def intLe (a b : Int) : Prop := a ≤ b

instance : DecidableRel intLe := fun a b => Int.decLe a b

/-- The per-airline breakdown `grp` of app.py lines 256-259: group the
filtered subset by airline, count each normalized-satisfaction value per
group with missing categories filled with 0, and sort the rows descending
by total count.  `sort_values` uses an unstable sort, so the order among
rows with equal totals is unspecified; the embedding sorts the
first-occurrence key order with a stable insertion sort, one member of the
admissible orders. -/
def grp (d : List Record) : List (String × Nat × Nat) :=
  List.insertionSort totalGe
    (((d.map Record.airline).dedup).map (fun a =>
      (a, d.countP (fun r => r.airline == a && satisfaction_norm r == "satisfied"),
          d.countP (fun r => r.airline == a && satisfaction_norm r == "neutral or dissatisfied"))))

/-- The per-year trend of app.py lines 271-273: group the filtered subset by
year (keys ascending), count each normalized-satisfaction value per year with
missing categories filled with 0; if the resulting table is empty, emit the
single placeholder row for the current year with both counts 0. -/
def year_trend (d : List Record) (currentYear : Int) : List (Int × Nat × Nat) :=
  let rows := (List.insertionSort intLe ((d.map Record.year).dedup)).map (fun y =>
    (y, d.countP (fun r => r.year == y && satisfaction_norm r == "satisfied"),
        d.countP (fun r => r.year == y && satisfaction_norm r == "neutral or dissatisfied")))
  if rows.isEmpty then [(currentYear, 0, 0)] else rows

/-- The year span `year_max - year_min + 1` (app.py line 208). -/
def span (yMin yMax : Int) : Int :=
  yMax - yMin + 1

/-- The current "live" year of app.py lines 206-213: while playing it is
`year_min + (n % span)` over the tick count `n`; while paused it is the
year-slider value. -/
def displayedYear (yMin yMax : Int) (n : Nat) (sliderYear : Int) (isPlaying : Bool) : Int :=
  if isPlaying then yMin + (n : Int) % span yMin yMax else sliderYear

/-- The aggregate outputs of one run of the `render` callback (app.py lines
203-304) that feed the returned label, KPI tiles and figures.  Figure
styling is presentation plumbing and is not modelled; each numeric field
carries the data series behind one output. -/
structure RenderOut where
  sliderVal : Int
  currentYear : Int
  total : Nat
  sat : Nat
  diss : Nat
  satPct : ℚ
  breakdown : List (String × Nat × Nat)
  trend : List (Int × Nat × Nat)
  pieSat : Nat
  pieDiss : Nat
  intervalDisabled : Bool
  deriving Repr, DecidableEq

/-- The main callback `render` of app.py lines 203-304, over the loaded
record set `d` and the slider bounds `yMin = year_min`, `yMax = year_max`
(lines 60-61).  It computes the current year from the playback state, builds
the cumulative filtered subset, and runs the four aggregate passes. -/
def render (d : List Record) (yMin yMax : Int) (n : Nat) (sliderYear : Int)
    (sel : Selection) (isPlaying : Bool) : RenderOut :=
  let currentYear := displayedYear yMin yMax n sliderYear isPlaying
  let sliderVal := if isPlaying then currentYear else sliderYear
  let fd := filteredSubset d sel currentYear
  let sat := labelCount fd "satisfied"
  let diss := labelCount fd "neutral or dissatisfied"
  let dYear := fd.filter (fun r => r.year == currentYear)
  { sliderVal := sliderVal
    currentYear := currentYear
    total := fd.length
    sat := sat
    diss := diss
    satPct := sat_pct sat diss
    breakdown := grp fd
    trend := year_trend fd currentYear
    pieSat := labelCount dYear "satisfied"
    pieDiss := labelCount dYear "neutral or dissatisfied"
    intervalDisabled := !isPlaying }

/-- The state persisted across callback runs: the interval tick count, the
year-slider value, and the play/pause store (app.py lines 157-158). -/
structure AppState where
  n : Nat
  slider : Int
  playing : Bool
  deriving Repr, DecidableEq

/-- One observable transition of the dashboard state: an interval tick
increments the tick count; the play button toggles the play store (lines
164-172); the user drags the slider to a value within its bounds (lines
133-137); a run of `render` writes the computed `slider_val` back into the
slider (first output, lines 185 and 296). -/
inductive Step (yMin yMax : Int) : AppState → AppState → Prop where
  | tick : ∀ s, Step yMin yMax s (AppState.mk (s.n + 1) s.slider s.playing)
  | togglePlay : ∀ s, Step yMin yMax s (AppState.mk s.n s.slider (!s.playing))
  | setSlider : ∀ s y, yMin ≤ y → y ≤ yMax →
      Step yMin yMax s (AppState.mk s.n y s.playing)
  | renderWrite : ∀ s,
      Step yMin yMax s
        (AppState.mk s.n (displayedYear yMin yMax s.n s.slider s.playing) s.playing)

/-- The states reachable from boot: tick count 0, slider at `year_min`
(line 134), playing (lines 157-158). -/
def Reachable (yMin yMax : Int) (s : AppState) : Prop :=
  Relation.ReflTransGen (Step yMin yMax) (AppState.mk 0 yMin true) s

/-- First record of the three-record example of the spec (§8). -/
def exRec1 : Record := Record.mk "X" "Business" "Personal Travel" 2010 (some "satisfied")

/-- Second record of the three-record example of the spec (§8). -/
def exRec2 : Record := Record.mk "X" "Business" "Personal Travel" 2012 (some "neutral")

/-- Third record of the three-record example of the spec (§8). -/
def exRec3 : Record := Record.mk "Y" "Eco" "Business Travel" 2015 (some "dissatisfied")

/-- The example Filter Selection: airlines `{X}`, no class or travel
constraint. -/
def exSel : Selection := Selection.mk ["X"] [] []

/-- One paused run of the callback over the example data with the cursor at
2012. -/
def exOut : RenderOut := render [exRec1, exRec2, exRec3] 2006 2025 0 2012 exSel false

/-- A record whose satisfaction label is missing (`pd.isna` holds). -/
def nullRec : Record := Record.mk "X" "Business" "Personal Travel" 2010 none

-- ======================= theorems =======================

theorem startsWithTok_iff (tok s : List Char) :
    startsWithTok tok s = true ↔ ∃ r, s = tok ++ r := by
  induction tok generalizing s with
  | nil => simp [startsWithTok]
  | cons a tok ih =>
    cases s with
    | nil => simp [startsWithTok]
    | cons b s =>
      simp only [startsWithTok, Bool.and_eq_true, beq_iff_eq, ih, List.cons_append,
        List.cons.injEq]
      constructor
      · rintro ⟨hab, r, hr⟩
        exact ⟨r, hab.symm, hr⟩
      · rintro ⟨r, hba, hr⟩
        exact ⟨hba.symm, r, hr⟩

theorem hasTokAux_iff (tok s : List Char) :
    hasTokAux tok s = true ↔ ∃ l r, s = l ++ (tok ++ r) := by
  induction s with
  | nil =>
    simp only [hasTokAux, startsWithTok_iff]
    constructor
    · rintro ⟨r, hr⟩
      exact ⟨[], r, by simpa using hr⟩
    · rintro ⟨l, r, hr⟩
      rcases List.append_eq_nil.mp hr.symm with ⟨hl, hrest⟩
      exact ⟨r, by simp [hrest]⟩
  | cons b s ih =>
    simp only [hasTokAux, Bool.or_eq_true, startsWithTok_iff, ih]
    constructor
    · rintro (⟨r, hr⟩ | ⟨l, r, hr⟩)
      · exact ⟨[], r, by simpa using hr⟩
      · exact ⟨b :: l, r, by simp [hr]⟩
    · rintro ⟨l, r, hr⟩
      cases l with
      | nil => exact Or.inl ⟨r, by simpa using hr⟩
      | cons c l =>
        rcases List.cons.injEq .. ▸ hr with ⟨hbc, hrest⟩
        exact Or.inr ⟨l, r, hrest⟩

theorem containsTok_iff (s tok : String) :
    containsTok s tok = true ↔ hasTokP s tok := by
  unfold containsTok hasTokP
  rw [hasTokAux_iff]
  constructor
  · rintro ⟨l, r, hr⟩
    exact ⟨l, r, by simp [hr, List.append_assoc]⟩
  · rintro ⟨l, r, hr⟩
    exact ⟨l, r, by simp [hr, List.append_assoc]⟩

/-- Counterexample to claim C1 as stated: on the null input the normalizer
returns the string `unknown`, which is neither of the two announced bucket
values. -/
theorem C1_cex :
    ¬ (normalize_satisfaction none = "satisfied" ∨
        normalize_satisfaction none = "neutral or dissatisfied") := by
  decide

/-- Claim C1 (amended): the satisfaction normalizer is a pure total function;
the null input maps to the separate value `unknown`, and every non-null input
maps to exactly one of the two buckets: a value whose stripped lowercase form
contains the positive token `satisf` but neither `neutral` nor `diss` maps to
`satisfied`, and every other non-null value maps to
`neutral or dissatisfied`. -/
theorem C1_norm_buckets (val : Option String) :
    (val = none → normalize_satisfaction val = "unknown") ∧
    (∀ v, val = some v →
      ((hasTokP (lowerStr (stripStr v)) "satisf" ∧
          ¬ hasTokP (lowerStr (stripStr v)) "neutral" ∧
          ¬ hasTokP (lowerStr (stripStr v)) "diss") →
        normalize_satisfaction val = "satisfied") ∧
      (¬ (hasTokP (lowerStr (stripStr v)) "satisf" ∧
          ¬ hasTokP (lowerStr (stripStr v)) "neutral" ∧
          ¬ hasTokP (lowerStr (stripStr v)) "diss") →
        normalize_satisfaction val = "neutral or dissatisfied")) := by
  constructor
  · intro h
    subst h
    rfl
  · intro v hv
    subst hv
    constructor
    · intro hP
      have hb : (containsTok (lowerStr (stripStr v)) "satisf" &&
          !(containsTok (lowerStr (stripStr v)) "neutral") &&
          !(containsTok (lowerStr (stripStr v)) "diss")) = true := by
        rcases hP with ⟨h1, h2, h3⟩
        simp only [Bool.and_eq_true, Bool.not_eq_true']
        refine ⟨⟨(containsTok_iff _ _).mpr h1, ?_⟩, ?_⟩
        · cases hc : containsTok (lowerStr (stripStr v)) "neutral"
          · rfl
          · exact absurd ((containsTok_iff _ _).mp hc) h2
        · cases hc : containsTok (lowerStr (stripStr v)) "diss"
          · rfl
          · exact absurd ((containsTok_iff _ _).mp hc) h3
      simp [normalize_satisfaction, hb]
    · intro hnP
      have hb : (containsTok (lowerStr (stripStr v)) "satisf" &&
          !(containsTok (lowerStr (stripStr v)) "neutral") &&
          !(containsTok (lowerStr (stripStr v)) "diss")) = false := by
        cases hc : (containsTok (lowerStr (stripStr v)) "satisf" &&
            !(containsTok (lowerStr (stripStr v)) "neutral") &&
            !(containsTok (lowerStr (stripStr v)) "diss"))
        · rfl
        · exfalso
          apply hnP
          simp only [Bool.and_eq_true, Bool.not_eq_true'] at hc
          rcases hc with ⟨⟨h1, h2⟩, h3⟩
          refine ⟨(containsTok_iff _ _).mp h1, ?_, ?_⟩
          · intro hmem
            rw [(containsTok_iff _ _).mpr hmem] at h2
            cases h2
          · intro hmem
            rw [(containsTok_iff _ _).mpr hmem] at h3
            cases h3
      simp [normalize_satisfaction, hb]

/-- Witness for C1: the theorem applied at the null input, at a positive
label and at a neutral label. -/
theorem C1_norm_buckets_witness :
    normalize_satisfaction none = "unknown" ∧
    normalize_satisfaction (some " Satisfied ") = "satisfied" ∧
    normalize_satisfaction (some "neutral") = "neutral or dissatisfied" := by
  refine ⟨(C1_norm_buckets none).1 rfl, ?_, ?_⟩
  · refine ((C1_norm_buckets (some " Satisfied ")).2 " Satisfied " rfl).1
      ⟨(containsTok_iff _ _).mp (by decide), ?_, ?_⟩
    · intro h
      exact absurd ((containsTok_iff _ _).mpr h) (by decide)
    · intro h
      exact absurd ((containsTok_iff _ _).mpr h) (by decide)
  · refine ((C1_norm_buckets (some "neutral")).2 "neutral" rfl).2 ?_
    rintro ⟨-, h2, -⟩
    exact h2 ((containsTok_iff _ _).mp (by decide))

theorem emptyOr_iff (l : List String) (x : String) :
    ((if l.isEmpty then true else l.contains x) = true) ↔ (l = [] ∨ x ∈ l) := by
  cases l <;> simp

/-- Claim C3: the Row Filter returns exactly the records of the data set
whose airline is selected, whose class is selected unless the class set is
empty, whose travel type is selected unless that set is empty, and whose
year is at most the cursor year. -/
theorem C3_filter_charact (d : List Record) (sel : Selection) (cursor : Int) (r : Record) :
    r ∈ filteredSubset d sel cursor ↔
      r ∈ d ∧ r.airline ∈ sel.airlines ∧
        (sel.classes = [] ∨ r.cls ∈ sel.classes) ∧
        (sel.travels = [] ∨ r.travel ∈ sel.travels) ∧
        r.year ≤ cursor := by
  simp only [filteredSubset, List.mem_filter, rowMask, Bool.and_eq_true, emptyOr_iff,
    decide_eq_true_eq, List.elem_iff, and_assoc]

/-- Claim C7: the cumulative filter is monotone in the cursor year; pushing
the cursor one year forward can only enlarge the filtered subset. -/
theorem C7_filter_monotone (d : List Record) (sel : Selection) (y : Int) :
    (filteredSubset d sel y).length ≤ (filteredSubset d sel (y + 1)).length := by
  simp only [filteredSubset, ← List.countP_eq_length_filter]
  apply List.countP_mono_left
  intro r _ h
  revert h
  simp only [rowMask, Bool.and_eq_true, decide_eq_true_eq]
  rintro ⟨⟨⟨h1, h2⟩, h3⟩, h4⟩
  exact ⟨⟨⟨h1, h2⟩, h3⟩, by omega⟩

/-- Claim C9: when the cumulative filtered subset is empty, the per-year
trend is the single placeholder row for the cursor year with both counts
zero. -/
theorem C9_trend_placeholder (d : List Record) (sel : Selection) (cursor : Int)
    (h : filteredSubset d sel cursor = []) :
    year_trend (filteredSubset d sel cursor) cursor = [(cursor, 0, 0)] := by
  rw [h]
  rfl

/-- Witness for C9: a data set whose single record is filtered away by the
cursor year. -/
theorem C9_trend_placeholder_witness :
    year_trend (filteredSubset [exRec3] exSel 2000) 2000 = [(2000, 0, 0)] :=
  C9_trend_placeholder [exRec3] exSel 2000 (by decide)

/-- Claim C6: while playing, the displayed year is the minimum year plus the
tick count modulo the year-range span, and in particular with range
[2006, 2025] and tick count 20 the displayed year wraps to 2006. -/
theorem C6_playback_year :
    (∀ (d : List Record) (yMin yMax : Int) (n : Nat) (sliderYear : Int) (sel : Selection),
      (render d yMin yMax n sliderYear sel true).currentYear
        = yMin + (n : Int) % (yMax - yMin + 1)) ∧
    (render [] 2006 2025 20 2006 (Selection.mk [] [] []) true).currentYear = 2006 := by
  constructor
  · intro d yMin yMax n sliderYear sel
    rfl
  · decide

/-- Claim C10: while playing, the callback output does not depend on the
year-slider input; two runs that differ only in the slider year produce
identical outputs, the written-back slider value included. -/
theorem C10_slider_noninterference (d : List Record) (yMin yMax : Int) (n : Nat)
    (s1 s2 : Int) (sel : Selection) :
    render d yMin yMax n s1 sel true = render d yMin yMax n s2 sel true := rfl

theorem sat_pct_nonneg (s t : Nat) : 0 ≤ sat_pct s t := by
  unfold sat_pct
  have h1 : (0:ℚ) ≤ (s : ℚ) / ((max 1 (s + t) : Nat) : ℚ) :=
    div_nonneg (Nat.cast_nonneg _) (Nat.cast_nonneg _)
  nlinarith

theorem sat_pct_le_100 (s t : Nat) : sat_pct s t ≤ 100 := by
  unfold sat_pct
  have hm1 : 1 ≤ max 1 (s + t) := le_max_left _ _
  have hsm : s ≤ max 1 (s + t) := le_trans (Nat.le_add_right s t) (le_max_right _ _)
  have hmpos : (0:ℚ) < ((max 1 (s + t) : Nat) : ℚ) := by exact_mod_cast hm1
  have hdiv : (s : ℚ) / ((max 1 (s + t) : Nat) : ℚ) ≤ 1 :=
    (div_le_one hmpos).mpr (by exact_mod_cast hsm)
  nlinarith

theorem sat_pct_zero (t : Nat) : sat_pct 0 t = 0 := by
  unfold sat_pct
  norm_num

theorem max_one_pos (s t : Nat) : 0 < max 1 (s + t) :=
  lt_of_lt_of_le Nat.zero_lt_one (le_max_left _ _)

/-- Claim C5: the satisfied percentage of every run of the callback lies in
[0, 100], its divisor `max(1, sat + diss)` is positive, and the percentage
is 0 when the filtered subset is empty. -/
theorem C5_pct_bounds (d : List Record) (yMin yMax : Int) (n : Nat) (sliderYear : Int)
    (sel : Selection) (isPlaying : Bool) :
    0 ≤ (render d yMin yMax n sliderYear sel isPlaying).satPct ∧
    (render d yMin yMax n sliderYear sel isPlaying).satPct ≤ 100 ∧
    0 < max 1 ((render d yMin yMax n sliderYear sel isPlaying).sat
        + (render d yMin yMax n sliderYear sel isPlaying).diss) ∧
    ((render d yMin yMax n sliderYear sel isPlaying).total = 0 →
      (render d yMin yMax n sliderYear sel isPlaying).satPct = 0) := by
  refine ⟨sat_pct_nonneg _ _, sat_pct_le_100 _ _, max_one_pos _ _, ?_⟩
  intro h
  have hfd : filteredSubset d sel (displayedYear yMin yMax n sliderYear isPlaying) = [] :=
    List.length_eq_zero.mp h
  show sat_pct
      (labelCount (filteredSubset d sel (displayedYear yMin yMax n sliderYear isPlaying))
        "satisfied")
      (labelCount (filteredSubset d sel (displayedYear yMin yMax n sliderYear isPlaying))
        "neutral or dissatisfied") = 0
  rw [hfd]
  exact sat_pct_zero _

/-- Witness for C5: the bounds and the empty-subset zero at a run over the
empty data set. -/
theorem C5_pct_bounds_witness :
    0 ≤ (render [] 2006 2025 0 2006 (Selection.mk [] [] []) false).satPct ∧
    (render [] 2006 2025 0 2006 (Selection.mk [] [] []) false).satPct ≤ 100 ∧
    (render [] 2006 2025 0 2006 (Selection.mk [] [] []) false).satPct = 0 := by
  have h := C5_pct_bounds [] 2006 2025 0 2006 (Selection.mk [] [] []) false
  exact ⟨h.1, h.2.1, h.2.2.2 rfl⟩

/-- Claim C4: the end-to-end example of the spec.  With the three example
records and the Filter Selection `{airlines = {X}, classes = {}, travel = {},
cursor = 2012}`, the cumulative filter keeps exactly the first two records,
the summary counts are total 2, satisfied 1, dissatisfied 1, percentage 50,
the per-airline breakdown has the single row X with one count in each
bucket, the per-year trend has rows 2010 (1 satisfied, 0 dissatisfied) and
2012 (0 satisfied, 1 dissatisfied), and the exact-year split at 2012 is 0
satisfied, 1 dissatisfied. -/
theorem C4_end_to_end :
    filteredSubset [exRec1, exRec2, exRec3] exSel 2012 = [exRec1, exRec2] ∧
    exOut.total = 2 ∧ exOut.sat = 1 ∧ exOut.diss = 1 ∧ exOut.satPct = 50 ∧
    exOut.breakdown = [("X", 1, 1)] ∧
    exOut.trend = [(2010, 1, 0), (2012, 0, 1)] ∧
    exOut.pieSat = 0 ∧ exOut.pieDiss = 1 := by
  refine ⟨by decide, by decide, by decide, by decide, ?_, by decide, by decide,
    by decide, by decide⟩
  have hs : exOut.sat = 1 := by decide
  have hd : exOut.diss = 1 := by decide
  have hpc : exOut.satPct = sat_pct 1 1 := by
    show sat_pct exOut.sat exOut.diss = sat_pct 1 1
    rw [hs, hd]
  rw [hpc]
  norm_num [sat_pct]

theorem sum_map_add {α : Type} (l : List α) (f g : α → Nat) :
    (l.map (fun x => f x + g x)).sum = (l.map f).sum + (l.map g).sum := by
  induction l with
  | nil => simp
  | cons a l ih =>
    simp only [List.map_cons, List.sum_cons, ih]
    omega

theorem sum_map_zero {α : Type} (l : List α) :
    (l.map (fun _ => (0:Nat))).sum = 0 := by
  induction l with
  | nil => rfl
  | cons a l ih => simp [ih]

theorem indicator_sum_notmem (as : List String) (x : String) (h : x ∉ as) :
    (as.map (fun a => if x = a then (1:Nat) else 0)).sum = 0 := by
  induction as with
  | nil => rfl
  | cons a as ih =>
    simp only [List.mem_cons, not_or] at h
    simp [h.1, ih h.2]

theorem indicator_sum_mem (as : List String) (x : String) (hnd : as.Nodup) (h : x ∈ as) :
    (as.map (fun a => if x = a then (1:Nat) else 0)).sum = 1 := by
  induction as with
  | nil => cases h
  | cons a as ih =>
    rcases List.nodup_cons.mp hnd with ⟨hna, hnd2⟩
    by_cases hxa : x = a
    · subst hxa
      simp [indicator_sum_notmem as x hna]
    · have hxas : x ∈ as := by
        rcases List.mem_cons.mp h with h1 | h1
        · exact absurd h1 hxa
        · exact h1
      simp [hxa, ih hnd2 hxas]

theorem countP_key_part (p : Record → Bool) (as : List String) (d : List Record)
    (hnd : as.Nodup) (hall : ∀ r ∈ d, r.airline ∈ as) :
    (as.map (fun a => d.countP (fun r => r.airline == a && p r))).sum = d.countP p := by
  induction d with
  | nil => simp
  | cons r d ih =>
    have hall2 : ∀ x ∈ d, x.airline ∈ as := fun x hx => hall x (List.mem_cons_of_mem _ hx)
    simp only [List.countP_cons]
    rw [sum_map_add as (fun a => d.countP (fun x => x.airline == a && p x))
      (fun a => if (r.airline == a && p r) = true then 1 else 0)]
    rw [ih hall2]
    congr 1
    cases hp : p r
    · simp only [hp, Bool.and_false]
      simp [sum_map_zero as]
    · simp only [hp, Bool.and_true, beq_iff_eq]
      simpa using indicator_sum_mem as r.airline hnd (hall r (List.mem_cons_self r d))

theorem countP_or_disjoint (p q : Record → Bool) (l : List Record)
    (h : ∀ r ∈ l, ¬(p r = true ∧ q r = true)) :
    l.countP (fun r => p r || q r) = l.countP p + l.countP q := by
  induction l with
  | nil => rfl
  | cons a l ih =>
    have ha := h a (List.mem_cons_self a l)
    have h2 : ∀ r ∈ l, ¬(p r = true ∧ q r = true) :=
      fun r hr => h r (List.mem_cons_of_mem _ hr)
    simp only [List.countP_cons, ih h2]
    cases hp : p a <;> cases hq : q a
    · simp [hp, hq]
    · simp [hp, hq]
      omega
    · simp [hp, hq]
      omega
    · exact absurd ⟨hp, hq⟩ ha

theorem norm_two_buckets (r : Record) (h : r.label ≠ none) :
    satisfaction_norm r = "satisfied" ∨
      satisfaction_norm r = "neutral or dissatisfied" := by
  cases hl : r.label with
  | none => exact absurd hl h
  | some v =>
    unfold satisfaction_norm normalize_satisfaction
    rw [hl]
    dsimp only
    split
    · exact Or.inl rfl
    · split
      · exact Or.inr rfl
      · exact Or.inr rfl

/-- Counterexample to claim C2 as stated: for a single filtered record whose
satisfaction label is null, the normalized label is `unknown`, so the
per-airline breakdown counts it in neither bucket and the breakdown sum 0
differs from the filtered total 1. -/
theorem C2_cex :
    ¬ (((grp (filteredSubset [nullRec] exSel 2012)).map (fun x => x.2.1 + x.2.2)).sum
        = (filteredSubset [nullRec] exSel 2012).length) := by
  decide

/-- Claim C2 (amended): whenever no record of the cumulative filtered subset
has a null satisfaction label, the per-airline breakdown — grouped by
airline, with missing satisfaction categories counted as zero and airlines
sorted descending by total count — has per-row totals summing to the number
of rows of the filtered subset.  (A null label normalizes to `unknown` and is
counted in neither bucket, so such rows would be missing from the sum.) -/
theorem C2_breakdown_sum (d : List Record) (sel : Selection) (cursor : Int)
    (h : ∀ r ∈ filteredSubset d sel cursor, r.label ≠ none) :
    ((grp (filteredSubset d sel cursor)).map (fun x => x.2.1 + x.2.2)).sum
      = (filteredSubset d sel cursor).length := by
  set fd := filteredSubset d sel cursor with hfd
  have hperm : (grp fd).Perm (((fd.map Record.airline).dedup).map (fun a =>
      (a, fd.countP (fun r => r.airline == a && satisfaction_norm r == "satisfied"),
          fd.countP (fun r => r.airline == a &&
            satisfaction_norm r == "neutral or dissatisfied")))) :=
    List.perm_insertionSort _ _
  rw [(hperm.map (fun x => x.2.1 + x.2.2)).sum_eq, List.map_map]
  have hcomp : ((fun x : String × Nat × Nat => x.2.1 + x.2.2) ∘ (fun a =>
      (a, fd.countP (fun r => r.airline == a && satisfaction_norm r == "satisfied"),
          fd.countP (fun r => r.airline == a &&
            satisfaction_norm r == "neutral or dissatisfied"))))
      = (fun a => fd.countP (fun r => r.airline == a && satisfaction_norm r == "satisfied")
          + fd.countP (fun r => r.airline == a &&
              satisfaction_norm r == "neutral or dissatisfied")) := rfl
  rw [hcomp]
  rw [sum_map_add ((fd.map Record.airline).dedup)
    (fun a => fd.countP (fun r => r.airline == a && satisfaction_norm r == "satisfied"))
    (fun a => fd.countP (fun r => r.airline == a &&
      satisfaction_norm r == "neutral or dissatisfied"))]
  have hnd : ((fd.map Record.airline).dedup).Nodup := List.nodup_dedup _
  have hall : ∀ r ∈ fd, r.airline ∈ (fd.map Record.airline).dedup :=
    fun r hr => List.mem_dedup.mpr (List.mem_map_of_mem _ hr)
  rw [countP_key_part (fun r => satisfaction_norm r == "satisfied") _ fd hnd hall]
  rw [countP_key_part (fun r => satisfaction_norm r == "neutral or dissatisfied") _ fd hnd hall]
  rw [← countP_or_disjoint (fun r => satisfaction_norm r == "satisfied")
      (fun r => satisfaction_norm r == "neutral or dissatisfied") fd ?_]
  · apply List.countP_eq_length.mpr
    intro r hr
    rcases norm_two_buckets r (h r hr) with h1 | h1 <;> simp [h1]
  · intro r _ hc
    rcases hc with ⟨h1, h2⟩
    rw [beq_iff_eq] at h1 h2
    rw [h1] at h2
    exact absurd h2 (by decide)

/-- Witness for C2: the theorem applied to the example data set, every label
of which is non-null. -/
theorem C2_breakdown_sum_witness :
    ((grp (filteredSubset [exRec1, exRec2, exRec3] exSel 2012)).map
        (fun x => x.2.1 + x.2.2)).sum
      = (filteredSubset [exRec1, exRec2, exRec3] exSel 2012).length :=
  C2_breakdown_sum [exRec1, exRec2, exRec3] exSel 2012 (by decide)

theorem displayedYear_bounds (yMin yMax : Int) (h : yMin ≤ yMax) (n : Nat) (sl : Int)
    (hsl1 : yMin ≤ sl) (hsl2 : sl ≤ yMax) (b : Bool) :
    yMin ≤ displayedYear yMin yMax n sl b ∧ displayedYear yMin yMax n sl b ≤ yMax := by
  cases b
  · exact ⟨hsl1, hsl2⟩
  · have hspan : 0 < span yMin yMax := by
      unfold span
      omega
    have h1 : 0 ≤ (n : Int) % span yMin yMax := Int.emod_nonneg _ (ne_of_gt hspan)
    have h2 : (n : Int) % span yMin yMax < span yMin yMax := Int.emod_lt_of_pos _ hspan
    unfold displayedYear
    unfold span at *
    simp only [if_true]
    omega

theorem reachable_slider_bounds (yMin yMax : Int) (h : yMin ≤ yMax) (s : AppState)
    (hr : Reachable yMin yMax s) : yMin ≤ s.slider ∧ s.slider ≤ yMax := by
  induction hr with
  | refl => exact ⟨le_refl _, h⟩
  | tail hab hstep ih =>
    rename_i b c
    cases hstep with
    | tick => exact ih
    | togglePlay => exact ih
    | setSlider y h1 h2 => exact ⟨h1, h2⟩
    | renderWrite =>
      exact displayedYear_bounds yMin yMax h b.n b.slider ih.1 ih.2 b.playing

/-- Claim C8: in every reachable dashboard state — the year advanced by
playback ticks, the play state toggled, the slider dragged within its
bounds, or the slider rewritten by a callback run — the current year used by
the pipeline lies between the smallest and largest observed year (the slider
bounds `year_min` and `year_max`). -/
theorem C8_cursor_in_range (yMin yMax : Int) (h : yMin ≤ yMax) (s : AppState)
    (hr : Reachable yMin yMax s) (d : List Record) (sel : Selection) :
    yMin ≤ (render d yMin yMax s.n s.slider sel s.playing).currentYear ∧
    (render d yMin yMax s.n s.slider sel s.playing).currentYear ≤ yMax := by
  have hs := reachable_slider_bounds yMin yMax h s hr
  exact displayedYear_bounds yMin yMax h s.n s.slider hs.1 hs.2 s.playing

/-- Witness for C8: the theorem at the boot state with the simulated year
range [2006, 2025]. -/
theorem C8_cursor_in_range_witness :
    2006 ≤ (render [] 2006 2025 0 2006 (Selection.mk [] [] []) true).currentYear ∧
    (render [] 2006 2025 0 2006 (Selection.mk [] [] []) true).currentYear ≤ 2025 :=
  C8_cursor_in_range 2006 2025 (by decide) (AppState.mk 0 2006 true)
    Relation.ReflTransGen.refl [] (Selection.mk [] [] [])
